import Mathlib

/-!
Shallow embedding of `rib/rib-manager.cpp` (NFD 0.6.3 RibManager).

The manager's handlers are modelled as pure functions that return the list
of observable actions they perform, in order: responses sent through the
management `CommandContinuation`, invocations of the internal
`RibUpdateResult` completion callback, scheduler calls, insertions into the
registered-face set, and `RibUpdate` submissions to the RIB table.
Times and delays are `Int` nanoseconds (the code uses `time::nanoseconds`
internally); `time::milliseconds` values are converted by the factor 10^6
exactly as `duration_cast` does. The asynchronous outcome of
`Rib::beginApplyUpdate` is an explicit `Bool` parameter (`applyOk`): the
RIB table is an external collaborator that invokes exactly one of the two
callbacks.
-/

namespace RibMgr

/-- Outcome enum of a RIB update, from `rib-update.hpp` usage in the manager. -/
inductive RibUpdateResult where
  | OK
  | ERROR
  | EXPIRED
deriving DecidableEq, Repr

/-- `RibUpdate::Action`. -/
inductive RibUpdateAction where
  | REGISTER
  | UNREGISTER
deriving DecidableEq, Repr

/-- A name is its list of components; only the component count matters here. -/
abbrev RouteName := List String

/-- `rib::Route` as used by the manager: `expires` is the optional absolute
expiration instant on the steady clock, in nanoseconds (absent = permanent,
the default for a freshly constructed `Route`). -/
structure Route where
  faceId : Nat
  origin : Nat
  cost : Nat
  flags : Nat
  expires : Option Int := none
deriving DecidableEq, Repr

/-- `rib::RibUpdate`: a pending mutation intent. -/
structure RibUpdate where
  action : RibUpdateAction
  name : RouteName
  route : Route
deriving DecidableEq, Repr

/-- `duration_cast<nanoseconds>(1ms)`. -/
def nanosecondsPerMillisecond : Int := 1000000

/-- `1_s` in nanoseconds. -/
def oneSecondNs : Int := 1000000000

/-- `ACTIVE_FACE_FETCH_INTERVAL = time::seconds(300)`, in nanoseconds. -/
def ACTIVE_FACE_FETCH_INTERVAL_Ns : Int := 300 * 1000000000

/-- One observable action of the manager, in program order. -/
inductive Event where
  /-- The management `CommandContinuation` is invoked with this status code. -/
  | respond (status : Nat)
  /-- The `std::function<void(RibUpdateResult)>` completion callback is invoked. -/
  | invokeDone (result : RibUpdateResult)
  /-- `scheduler::schedule(delay, onRouteExpiration ...)` for a route expiration. -/
  | scheduleTimer (delay : Int)
  /-- `m_registeredFaces.insert(faceId)`. -/
  | insertFace (faceId : Nat)
  /-- `m_rib.beginApplyUpdate(update, ...)`. -/
  | submitUpdate (u : RibUpdate)
  /-- `scheduleActiveFaceFetch(delay)`. -/
  | scheduleFaceFetch (delay : Int)
  /-- `scheduler::schedule(delay, onFaceDestroyedEvent faceId)`. -/
  | scheduleFaceDestroyed (delay : Int) (faceId : Nat)
deriving DecidableEq, Repr

/-- `RibManager::beginRibUpdate`: submit to the RIB table's async apply;
on success report `OK`; on failure schedule a 1-second active-face fetch and
report `ERROR`. `applyOk` is the outcome the RIB table reports back. -/
def beginRibUpdate (update : RibUpdate) (applyOk : Bool) : List Event :=
  Event.submitUpdate update ::
    (if applyOk then
      [Event.invokeDone RibUpdateResult.OK]
    else
      [Event.scheduleFaceFetch oneSecondNs, Event.invokeDone RibUpdateResult.ERROR])

/-- `RibManager::beginAddRoute(name, route, expires, done)`, with `now` the
value of `time::steady_clock::now()` at the call. Mirrors the source: an
explicit non-positive `expires` or, absent an explicit period, a pre-existing
`route.expires` with non-positive remaining lifetime yields `EXPIRED`
immediately; otherwise the expiration timer (if any) is scheduled, the face id
is inserted into the registered-face set, and a REGISTER update is submitted. -/
def beginAddRoute (name : RouteName) (route : Route) (expires : Option Int)
    (now : Int) (applyOk : Bool) : List Event :=
  match expires with
  | some rel =>
    if rel ≤ 0 then
      [Event.invokeDone RibUpdateResult.EXPIRED]
    else
      let route' : Route := { route with expires := some (now + rel) }
      Event.scheduleTimer rel ::
      Event.insertFace route'.faceId ::
      beginRibUpdate { action := RibUpdateAction.REGISTER, name := name, route := route' } applyOk
  | none =>
    match route.expires with
    | some absExp =>
      let rel := absExp - now
      if rel ≤ 0 then
        [Event.invokeDone RibUpdateResult.EXPIRED]
      else
        Event.scheduleTimer rel ::
        Event.insertFace route.faceId ::
        beginRibUpdate { action := RibUpdateAction.REGISTER, name := name, route := route } applyOk
    | none =>
      Event.insertFace route.faceId ::
      beginRibUpdate { action := RibUpdateAction.REGISTER, name := name, route := route } applyOk

/-- `RibManager::beginRemoveRoute`: wrap as UNREGISTER and submit. -/
def beginRemoveRoute (name : RouteName) (route : Route) (applyOk : Bool) : List Event :=
  beginRibUpdate { action := RibUpdateAction.UNREGISTER, name := name, route := route } applyOk

/-- `ndn::nfd::ControlParameters` fields the manager reads; `expirationPeriod`
is in milliseconds. -/
structure ControlParameters where
  name : RouteName
  faceId : Nat
  origin : Nat
  cost : Nat
  flags : Nat
  expirationPeriod : Option Int := none
deriving DecidableEq, Repr

/-- `time::milliseconds::max().count()` = 2^63 - 1. -/
def MILLISECONDS_MAX : Int := 9223372036854775807

/-- `RibManager::setFaceForSelfRegistration`: face id sentinel 0 is replaced by
the `IncomingFaceIdTag` attached to the request (asserted present in the
source); any other face id leaves the parameters untouched. -/
def setFaceForSelfRegistration (incomingFaceId : Nat) (p : ControlParameters) :
    ControlParameters :=
  if p.faceId = 0 then { p with faceId := incomingFaceId } else p

/-- `RibManager::registerEntry`. `fibMaxDepth` is the configured
`FIB_MAX_DEPTH` (from `core/fib-max-depth.hpp`), kept as a parameter. -/
def registerEntry (fibMaxDepth : Nat) (incomingFaceId : Nat) (p : ControlParameters)
    (now : Int) (applyOk : Bool) : List Event :=
  if p.name.length > fibMaxDepth then
    [Event.respond 414]
  else
    let params := setFaceForSelfRegistration incomingFaceId p
    let route : Route :=
      { faceId := params.faceId, origin := params.origin, cost := params.cost,
        flags := params.flags }
    let expires : Option Int :=
      match params.expirationPeriod with
      | some ms =>
        if ms = MILLISECONDS_MAX then none else some (ms * nanosecondsPerMillisecond)
      | none => none
    Event.respond 200 :: beginAddRoute params.name route expires now applyOk

/-- `RibManager::unregisterEntry`: no depth validation; respond 200, then
submit UNREGISTER. The `Route` only has `faceId` and `origin` set. -/
def unregisterEntry (incomingFaceId : Nat) (p : ControlParameters)
    (applyOk : Bool) : List Event :=
  let params := setFaceForSelfRegistration incomingFaceId p
  let route : Route :=
    { faceId := params.faceId, origin := params.origin, cost := 0, flags := 0 }
  Event.respond 200 :: beginRemoveRoute params.name route applyOk

/-- `RibManager::removeInvalidFaces(activeFaces)`: for each registered face id
not among the active face ids, schedule zero-delay face-destroyed handling;
then reschedule the periodic fetch at the normal interval. `activeFaces` holds
the face ids of the fetched `FaceStatus` records (the only field the source
reads). -/
def removeInvalidFaces (registeredFaces : List Nat) (activeFaces : List Nat) :
    List Event :=
  ((registeredFaces.filter (fun id => activeFaces.count id == 0)).map
      (fun id => Event.scheduleFaceDestroyed 0 id))
    ++ [Event.scheduleFaceFetch ACTIVE_FACE_FETCH_INTERVAL_Ns]

/-- `RibManager::onFetchActiveFacesFailure`: log and reschedule the fetch at
the normal interval. -/
def onFetchActiveFacesFailure (code : Nat) (reason : String) : List Event :=
  [Event.scheduleFaceFetch ACTIVE_FACE_FETCH_INTERVAL_Ns]

/-- `std::set<uint64_t>::erase` on the registered-face set (membership view). -/
def faceSetErase (s : List Nat) (id : Nat) : List Nat :=
  s.filter (fun x => x != id)

/-- RIB table contents: name to route set. -/
abbrev Rib := List (RouteName × List Route)

/-- Modelled from the spec: `Rib::beginRemoveFace` (in `rib.cpp`, not part of
this repository's sources) — the face-destroyed handler "removes all routes
owned by that face id from the RIB table"; an entry left with no routes is
dropped. -/
def ribRemoveFace (rib : Rib) (faceId : Nat) : Rib :=
  match rib with
  | [] => []
  | (name, routes) :: rest =>
    let routes' := routes.filter (fun r => r.faceId != faceId)
    if routes'.isEmpty then ribRemoveFace rest faceId
    else (name, routes') :: ribRemoveFace rest faceId

/-- The manager state touched by face-destroyed handling. -/
structure ManagerState where
  rib : Rib
  registeredFaces : List Nat
deriving DecidableEq, Repr

/-- `RibManager::onFaceDestroyedEvent`: remove the face's routes from the RIB
table and erase the id from the registered-face set. -/
def onFaceDestroyedEvent (s : ManagerState) (faceId : Nat) : ManagerState :=
  { rib := ribRemoveFace s.rib faceId
    registeredFaces := faceSetErase s.registeredFaces faceId }

/-- One route record of the `rib/list` dataset. -/
structure RouteItem where
  faceId : Nat
  origin : Nat
  cost : Nat
  flags : Nat
  expirationPeriod : Option Int
deriving DecidableEq, Repr

/-- One `ndn::nfd::RibEntry` record of the `rib/list` dataset. -/
structure RibEntryItem where
  name : RouteName
  routes : List RouteItem
deriving DecidableEq, Repr

/-- `duration_cast<milliseconds>` of a nanosecond count: C++ integer division
truncates toward zero, as does `Int.div`. -/
def durationCastMs (ns : Int) : Int := Int.tdiv ns nanosecondsPerMillisecond

/-- The dataset route record built for one `Route` in `listEntries`. -/
def listEntryRoute (now : Int) (route : Route) : RouteItem :=
  { faceId := route.faceId, origin := route.origin, cost := route.cost,
    flags := route.flags,
    expirationPeriod := route.expires.map (fun absExp => durationCastMs (absExp - now)) }

/-- The dataset entry built for one RIB entry in `listEntries`. -/
def listEntryItem (now : Int) (kv : RouteName × List Route) : RibEntryItem :=
  { name := kv.1, routes := kv.2.map (listEntryRoute now) }

/-- Actions on the `StatusDatasetContext`. -/
inductive StreamEvent where
  /-- `context.append(item.wireEncode())`. -/
  | append (item : RibEntryItem)
  /-- `context.end()`. -/
  | endStream
deriving DecidableEq, Repr

/-- `RibManager::listEntries`: append one record per RIB entry, in table
order, then end the stream. `now` is `time::steady_clock::now()` read once at
the start. -/
def listEntries (rib : Rib) (now : Int) : List StreamEvent :=
  (rib.map (fun kv => StreamEvent.append (listEntryItem now kv)))
    ++ [StreamEvent.endStream]

/-- The `RibUpdate`s a trace submits to the RIB table, in order. -/
def submittedUpdates (tr : List Event) : List RibUpdate :=
  tr.filterMap (fun e =>
    match e with
    | Event.submitUpdate u => some u
    | _ => none)

/-- The face ids a trace inserts into the registered-face set, in order. -/
def insertedFaces (tr : List Event) : List Nat :=
  tr.filterMap (fun e =>
    match e with
    | Event.insertFace f => some f
    | _ => none)

/-- The expiration-timer delays a trace schedules, in order. -/
def scheduledTimerDelays (tr : List Event) : List Int :=
  tr.filterMap (fun e =>
    match e with
    | Event.scheduleTimer d => some d
    | _ => none)

/-- The status codes a trace sends through the command continuation, in order. -/
def respondedStatuses (tr : List Event) : List Nat :=
  tr.filterMap (fun e =>
    match e with
    | Event.respond s => some s
    | _ => none)

/-- Projection keeping only face-set insertions (`(false, faceId)`) and update
submissions (`(true, nexthop faceId)`), in order. -/
def eventShape (e : Event) : Option (Bool × Nat) :=
  match e with
  | Event.insertFace f => some (false, f)
  | Event.submitUpdate u => some (true, u.route.faceId)
  | _ => none

/-! ### Helper lemmas -/

theorem filter_self_idem {α : Type} (p : α → Bool) (l : List α) :
    (l.filter p).filter p = l.filter p := by
  induction l with
  | nil => rfl
  | cons a t ih =>
    cases h : p a
    · simp [List.filter_cons, h, ih]
    · simp [List.filter_cons, h, ih]

theorem respondedStatuses_beginRibUpdate (u : RibUpdate) (applyOk : Bool) :
    respondedStatuses (beginRibUpdate u applyOk) = [] := by
  cases applyOk <;> simp [beginRibUpdate, respondedStatuses]

theorem respondedStatuses_beginAddRoute (name : RouteName) (route : Route)
    (expires : Option Int) (now : Int) (applyOk : Bool) :
    respondedStatuses (beginAddRoute name route expires now applyOk) = [] := by
  rcases expires with _ | rel
  · rcases hr : route.expires with _ | absExp
    · cases applyOk <;> simp [beginAddRoute, hr, respondedStatuses, beginRibUpdate]
    · by_cases hle : absExp - now ≤ 0
      · simp [beginAddRoute, hr, hle, respondedStatuses]
      · cases applyOk <;>
          simp [beginAddRoute, hr, hle, respondedStatuses, beginRibUpdate]
  · by_cases hle : rel ≤ 0
    · simp [beginAddRoute, hle, respondedStatuses]
    · cases applyOk <;> simp [beginAddRoute, hle, respondedStatuses, beginRibUpdate]

/-! ### Claims -/

/-- Claim C1 (amended): a call to `beginAddRoute` with an explicit expiration
period that is zero or negative, or with no explicit period and a route whose
pre-existing absolute expiration yields a remaining lifetime of zero or
negative at call time, invokes the completion callback with `EXPIRED` and
submits no `RibUpdate` to the RIB table. -/
theorem beginAddRoute_expired_no_submit (name : RouteName) (route : Route)
    (expires : Option Int) (now : Int) (applyOk : Bool)
    (h : (∃ rel, expires = some rel ∧ rel ≤ 0) ∨
         (expires = none ∧ ∃ absExp, route.expires = some absExp ∧ absExp - now ≤ 0)) :
    beginAddRoute name route expires now applyOk =
      [Event.invokeDone RibUpdateResult.EXPIRED] ∧
    submittedUpdates (beginAddRoute name route expires now applyOk) = [] := by
  rcases h with ⟨rel, hrel, hle⟩ | ⟨hnone, absExp, habs, hle⟩
  · subst hrel
    simp [beginAddRoute, hle, submittedUpdates]
  · subst hnone
    simp [beginAddRoute, habs, hle, submittedUpdates]

/-- Witness for C1's amended theorem at a concrete expired input. -/
theorem beginAddRoute_expired_no_submit_witness :
    beginAddRoute ["n"] { faceId := 7, origin := 0, cost := 0, flags := 0 }
        (some 0) 5 true =
      [Event.invokeDone RibUpdateResult.EXPIRED] ∧
    submittedUpdates (beginAddRoute ["n"] { faceId := 7, origin := 0, cost := 0, flags := 0 }
        (some 0) 5 true) = [] :=
  beginAddRoute_expired_no_submit ["n"]
    { faceId := 7, origin := 0, cost := 0, flags := 0 } (some 0) 5 true
    (Or.inl ⟨0, rfl, by decide⟩)

/-- Claim C1 counterexample: a call with an explicit positive expiration period
but a route whose pre-existing absolute expiration already lies in the past
(remaining lifetime -5 at call time) is still registered — the explicit period
overwrites the stale expiration, the callback is not invoked with `EXPIRED`,
and a REGISTER update is submitted. -/
theorem beginAddRoute_stale_route_still_registered :
    Event.invokeDone RibUpdateResult.EXPIRED ∉
      beginAddRoute [] { faceId := 4, origin := 0, cost := 0, flags := 0,
                         expires := some (-5) } (some 10) 0 true ∧
    submittedUpdates (beginAddRoute []
        { faceId := 4, origin := 0, cost := 0, flags := 0, expires := some (-5) }
        (some 10) 0 true) ≠ [] := by
  decide

/-- Claim C3 counterexample: after a failed asynchronous apply, the audit fetch
is scheduled with a 1-second delay, not near-zero: the trace holds a fetch at
`oneSecondNs` and no zero-delay fetch. -/
theorem beginRibUpdate_failure_fetch_not_immediate :
    Event.scheduleFaceFetch oneSecondNs ∈
      beginRibUpdate { action := RibUpdateAction.REGISTER, name := ["x"],
                       route := { faceId := 1, origin := 0, cost := 0, flags := 0 } } false ∧
    Event.scheduleFaceFetch 0 ∉
      beginRibUpdate { action := RibUpdateAction.REGISTER, name := ["x"],
                       route := { faceId := 1, origin := 0, cost := 0, flags := 0 } } false := by
  decide

/-- Claim C3 (amended): when the asynchronous apply of a submitted update
fails, the manager schedules an active-face fetch exactly 1 second after the
failure and invokes the completion callback with `ERROR`. -/
theorem beginRibUpdate_failure_audit (update : RibUpdate) :
    beginRibUpdate update false =
      [Event.submitUpdate update, Event.scheduleFaceFetch oneSecondNs,
       Event.invokeDone RibUpdateResult.ERROR] := by
  simp [beginRibUpdate]

/-- Claim C9 counterexample: an invocation of `beginAddRoute` with an already
non-positive explicit expiration period returns `EXPIRED` without inserting the
route's face id into the registered-face set — the insertion is not
unconditional. -/
theorem beginAddRoute_expired_does_not_insert_face :
    beginAddRoute ["c"] { faceId := 9, origin := 0, cost := 0, flags := 0 }
        (some (-1)) 0 true =
      [Event.invokeDone RibUpdateResult.EXPIRED] ∧
    Event.insertFace 9 ∉
      beginAddRoute ["c"] { faceId := 9, origin := 0, cost := 0, flags := 0 }
        (some (-1)) 0 true := by
  decide

/-- Claim C9 (amended): every invocation of `beginAddRoute` that does not
short-circuit with `EXPIRED` inserts the route's face id into the
registered-face set exactly once, before the single REGISTER update for that
name is submitted (and regardless of whether the asynchronous apply later
succeeds). -/
theorem beginAddRoute_inserts_face_before_submit (name : RouteName) (route : Route)
    (expires : Option Int) (now : Int) (applyOk : Bool)
    (h : beginAddRoute name route expires now applyOk ≠
         [Event.invokeDone RibUpdateResult.EXPIRED]) :
    (beginAddRoute name route expires now applyOk).filterMap eventShape =
      [(false, route.faceId), (true, route.faceId)] ∧
    (submittedUpdates (beginAddRoute name route expires now applyOk)).map
        (fun u => (u.action, u.name)) = [(RibUpdateAction.REGISTER, name)] := by
  rcases expires with _ | rel
  · rcases hr : route.expires with _ | absExp
    · cases applyOk <;>
        simp [beginAddRoute, hr, beginRibUpdate, eventShape, submittedUpdates]
    · by_cases hle : absExp - now ≤ 0
      · exact absurd (by simp [beginAddRoute, hr, hle]) h
      · cases applyOk <;>
          simp [beginAddRoute, hr, hle, beginRibUpdate, eventShape, submittedUpdates]
  · by_cases hle : rel ≤ 0
    · exact absurd (by simp [beginAddRoute, hle]) h
    · cases applyOk <;>
        simp [beginAddRoute, hle, beginRibUpdate, eventShape, submittedUpdates]

/-- Witness for C9's amended theorem at a concrete non-expired input. -/
theorem beginAddRoute_inserts_face_before_submit_witness :
    (beginAddRoute ["w"] { faceId := 5, origin := 1, cost := 2, flags := 3 }
        (some 8) 100 false).filterMap eventShape =
      [(false, 5), (true, 5)] ∧
    (submittedUpdates (beginAddRoute ["w"]
        { faceId := 5, origin := 1, cost := 2, flags := 3 } (some 8) 100 false)).map
        (fun u => (u.action, u.name)) = [(RibUpdateAction.REGISTER, ["w"])] :=
  beginAddRoute_inserts_face_before_submit ["w"]
    { faceId := 5, origin := 1, cost := 2, flags := 3 } (some 8) 100 false
    (by decide)

/-- Claim C2: on an audit cycle, every registered face id absent from the
fetched active-face set gets zero-delay face-destroyed handling scheduled;
a face id present in the active set gets none at any delay; the trace ends by
rescheduling the periodic audit at the normal 300-second interval; and a
failed fetch also reschedules at the normal interval. -/
theorem removeInvalidFaces_audit (registered active : List Nat)
    (code : Nat) (reason : String) :
    (∀ id ∈ registered, id ∉ active →
        Event.scheduleFaceDestroyed 0 id ∈ removeInvalidFaces registered active) ∧
    (∀ id ∈ active, ∀ d,
        Event.scheduleFaceDestroyed d id ∉ removeInvalidFaces registered active) ∧
    (removeInvalidFaces registered active).getLast? =
        some (Event.scheduleFaceFetch ACTIVE_FACE_FETCH_INTERVAL_Ns) ∧
    onFetchActiveFacesFailure code reason =
        [Event.scheduleFaceFetch ACTIVE_FACE_FETCH_INTERVAL_Ns] := by
  refine ⟨?_, ?_, ?_, rfl⟩
  · intro id hid hnot
    simp only [removeInvalidFaces, List.mem_append, List.mem_map, List.mem_filter]
    exact Or.inl ⟨id, ⟨hid, by simp [List.count_eq_zero, hnot]⟩, rfl⟩
  · intro id hact d
    simp only [removeInvalidFaces, List.mem_append, List.mem_map, List.mem_filter]
    rintro (⟨a, ⟨_, hcnt⟩, heq⟩ | hfetch)
    · obtain ⟨hd, ha⟩ := Event.scheduleFaceDestroyed.inj heq
      subst ha
      rw [beq_iff_eq, List.count_eq_zero] at hcnt
      exact hcnt hact
    · simp at hfetch
  · rw [removeInvalidFaces, List.getLast?_concat]

/-- Witness for C2's theorem: with registered faces `[1, 2]` and active faces
`[2]`, face 1 gets zero-delay destroyed handling and face 2 gets none. -/
theorem removeInvalidFaces_audit_witness :
    Event.scheduleFaceDestroyed 0 1 ∈ removeInvalidFaces [1, 2] [2] ∧
    Event.scheduleFaceDestroyed 0 2 ∉ removeInvalidFaces [1, 2] [2] :=
  ⟨(removeInvalidFaces_audit [1, 2] [2] 0 "").1 1 (by decide) (by decide),
   (removeInvalidFaces_audit [1, 2] [2] 0 "").2.1 2 (by decide) 0⟩

/-- Claim C4: for a register request that passes the depth validation, and for
any unregister request, the first observable action is the status-200 response,
it is the only response in the trace (so the caller never observes the
asynchronous apply outcome, the internal callback being a no-op), and any
update submission therefore comes after it. -/
theorem respond_success_before_submit (fibMaxDepth incomingFaceId : Nat)
    (p : ControlParameters) (now : Int) (applyOk : Bool)
    (h : p.name.length ≤ fibMaxDepth) :
    (registerEntry fibMaxDepth incomingFaceId p now applyOk).head? =
        some (Event.respond 200) ∧
    respondedStatuses (registerEntry fibMaxDepth incomingFaceId p now applyOk) = [200] ∧
    (unregisterEntry incomingFaceId p applyOk).head? = some (Event.respond 200) ∧
    respondedStatuses (unregisterEntry incomingFaceId p applyOk) = [200] := by
  have hnot : ¬ p.name.length > fibMaxDepth := by omega
  refine ⟨?_, ?_, ?_, ?_⟩
  · simp [registerEntry, hnot]
  · simp only [registerEntry, hnot, if_false, respondedStatuses, List.filterMap_cons]
    have := respondedStatuses_beginAddRoute
      (setFaceForSelfRegistration incomingFaceId p).name
      { faceId := (setFaceForSelfRegistration incomingFaceId p).faceId,
        origin := (setFaceForSelfRegistration incomingFaceId p).origin,
        cost := (setFaceForSelfRegistration incomingFaceId p).cost,
        flags := (setFaceForSelfRegistration incomingFaceId p).flags }
      (match (setFaceForSelfRegistration incomingFaceId p).expirationPeriod with
       | some ms =>
         if ms = MILLISECONDS_MAX then none else some (ms * nanosecondsPerMillisecond)
       | none => none)
      now applyOk
    simpa [respondedStatuses] using this
  · cases applyOk <;> simp [unregisterEntry, beginRemoveRoute, beginRibUpdate]
  · cases applyOk <;>
      simp [unregisterEntry, beginRemoveRoute, beginRibUpdate, respondedStatuses]

/-- Witness for C4's theorem at a concrete request. -/
theorem respond_success_before_submit_witness :
    (registerEntry 32 6 { name := ["a"], faceId := 0, origin := 0, cost := 1, flags := 1 }
        0 true).head? = some (Event.respond 200) ∧
    respondedStatuses (registerEntry 32 6
        { name := ["a"], faceId := 0, origin := 0, cost := 1, flags := 1 } 0 true) = [200] ∧
    (unregisterEntry 6 { name := ["a"], faceId := 0, origin := 0, cost := 1, flags := 1 }
        true).head? = some (Event.respond 200) ∧
    respondedStatuses (unregisterEntry 6
        { name := ["a"], faceId := 0, origin := 0, cost := 1, flags := 1 } true) = [200] :=
  respond_success_before_submit 32 6
    { name := ["a"], faceId := 0, origin := 0, cost := 1, flags := 1 } 0 true
    (by decide)

/-- Claim C5: the sentinel face id 0 is replaced by the inbound-transport face
id while leaving every other parameter unchanged, a non-zero face id leaves the
parameters untouched, and the route constructed from sentinel parameters (here
in `unregisterEntry`, which always submits) carries the inbound face id. -/
theorem setFaceForSelfRegistration_resolves (incomingFaceId : Nat)
    (p : ControlParameters) (applyOk : Bool) :
    (p.faceId = 0 →
        setFaceForSelfRegistration incomingFaceId p = { p with faceId := incomingFaceId }) ∧
    (p.faceId ≠ 0 → setFaceForSelfRegistration incomingFaceId p = p) ∧
    (p.faceId = 0 →
        (submittedUpdates (unregisterEntry incomingFaceId p applyOk)).map
            (fun u => u.route.faceId) = [incomingFaceId]) := by
  refine ⟨?_, ?_, ?_⟩
  · intro h0
    simp [setFaceForSelfRegistration, h0]
  · intro hne
    simp [setFaceForSelfRegistration, hne]
  · intro h0
    cases applyOk <;>
      simp [unregisterEntry, setFaceForSelfRegistration, h0, beginRemoveRoute,
        beginRibUpdate, submittedUpdates]

/-- Witness for C5's theorem: sentinel 0 resolves to inbound face 9, face id 3
is left unchanged, and the unregister route built from sentinel parameters
carries face id 9. -/
theorem setFaceForSelfRegistration_resolves_witness :
    setFaceForSelfRegistration 9
        { name := ["s"], faceId := 0, origin := 0, cost := 0, flags := 0 } =
      { name := ["s"], faceId := 9, origin := 0, cost := 0, flags := 0 } ∧
    setFaceForSelfRegistration 9
        { name := ["s"], faceId := 3, origin := 0, cost := 0, flags := 0 } =
      { name := ["s"], faceId := 3, origin := 0, cost := 0, flags := 0 } ∧
    (submittedUpdates (unregisterEntry 9
        { name := ["s"], faceId := 0, origin := 0, cost := 0, flags := 0 } true)).map
        (fun u => u.route.faceId) = [9] :=
  ⟨(setFaceForSelfRegistration_resolves 9
      { name := ["s"], faceId := 0, origin := 0, cost := 0, flags := 0 } true).1 rfl,
   (setFaceForSelfRegistration_resolves 9
      { name := ["s"], faceId := 3, origin := 0, cost := 0, flags := 0 } true).2.1
      (by decide),
   (setFaceForSelfRegistration_resolves 9
      { name := ["s"], faceId := 0, origin := 0, cost := 0, flags := 0 } true).2.2 rfl⟩

/-- Claim C6: a registration whose name has more components than the
configured maximum depth yields exactly the 414 response: no update is
submitted to the RIB table and no face id is inserted into the
registered-face set. -/
theorem registerEntry_overlong_414 (fibMaxDepth incomingFaceId : Nat)
    (p : ControlParameters) (now : Int) (applyOk : Bool)
    (h : fibMaxDepth < p.name.length) :
    registerEntry fibMaxDepth incomingFaceId p now applyOk = [Event.respond 414] ∧
    submittedUpdates (registerEntry fibMaxDepth incomingFaceId p now applyOk) = [] ∧
    insertedFaces (registerEntry fibMaxDepth incomingFaceId p now applyOk) = [] := by
  have h' : p.name.length > fibMaxDepth := h
  refine ⟨?_, ?_, ?_⟩ <;> simp [registerEntry, h', submittedUpdates, insertedFaces]

/-- Witness for C6's theorem: a 2-component name against maximum depth 1. -/
theorem registerEntry_overlong_414_witness :
    registerEntry 1 6 { name := ["a", "b"], faceId := 2, origin := 0, cost := 0, flags := 0 }
        0 true = [Event.respond 414] ∧
    submittedUpdates (registerEntry 1 6
        { name := ["a", "b"], faceId := 2, origin := 0, cost := 0, flags := 0 } 0 true) = [] ∧
    insertedFaces (registerEntry 1 6
        { name := ["a", "b"], faceId := 2, origin := 0, cost := 0, flags := 0 } 0 true) = [] :=
  registerEntry_overlong_414 1 6
    { name := ["a", "b"], faceId := 2, origin := 0, cost := 0, flags := 0 } 0 true
    (by decide)

theorem ribRemoveFace_idem (rib : Rib) (faceId : Nat) :
    ribRemoveFace (ribRemoveFace rib faceId) faceId = ribRemoveFace rib faceId := by
  induction rib with
  | nil => rfl
  | cons kv t ih =>
    obtain ⟨name, routes⟩ := kv
    by_cases hemp : (routes.filter (fun r => r.faceId != faceId)).isEmpty
    · simp [ribRemoveFace, hemp, ih]
    · simp [ribRemoveFace, hemp, filter_self_idem, ih]

/-- Claim C7: face-destroyed handling is idempotent — a second invocation for
the same face id changes neither the RIB table state nor the registered-face
set, and after the first invocation the registered-face set no longer contains
that id. -/
theorem onFaceDestroyedEvent_idempotent (s : ManagerState) (faceId : Nat) :
    onFaceDestroyedEvent (onFaceDestroyedEvent s faceId) faceId =
      onFaceDestroyedEvent s faceId ∧
    faceId ∉ (onFaceDestroyedEvent s faceId).registeredFaces := by
  constructor
  · simp [onFaceDestroyedEvent, ribRemoveFace_idem, faceSetErase, filter_self_idem]
  · simp [onFaceDestroyedEvent, faceSetErase, List.mem_filter]

/-- Claim C8: for every RIB entry and every route in it, `listEntries` emits a
record carrying the route's face id, origin, cost and flags, whose expiration
period is the remaining lifetime (absolute expiration minus the current time,
cast to whole milliseconds) exactly when the route has an expiration and is
omitted otherwise; and the result stream is explicitly terminated once, after
the last entry. -/
theorem listEntries_emits_routes (rib : Rib) (now : Int) :
    (∀ kv ∈ rib, ∀ route ∈ kv.2,
        ∃ item, StreamEvent.append item ∈ listEntries rib now ∧ item.name = kv.1 ∧
          ∃ ri ∈ item.routes,
            ri.faceId = route.faceId ∧ ri.origin = route.origin ∧
            ri.cost = route.cost ∧ ri.flags = route.flags ∧
            ri.expirationPeriod =
              route.expires.map (fun absExp => durationCastMs (absExp - now))) ∧
    (listEntries rib now).getLast? = some StreamEvent.endStream ∧
    (listEntries rib now).count StreamEvent.endStream = 1 := by
  refine ⟨?_, ?_, ?_⟩
  · intro kv hkv route hroute
    refine ⟨listEntryItem now kv, ?_, rfl, listEntryRoute now route, ?_,
      rfl, rfl, rfl, rfl, rfl⟩
    · simp only [listEntries, List.mem_append, List.mem_map]
      exact Or.inl ⟨kv, hkv, rfl⟩
    · simp only [listEntryItem, List.mem_map]
      exact ⟨route, hroute, rfl⟩
  · rw [listEntries, List.getLast?_concat]
  · rw [listEntries, List.count_append]
    have h0 : (rib.map (fun kv => StreamEvent.append (listEntryItem now kv))).count
        StreamEvent.endStream = 0 := by
      rw [List.count_eq_zero]
      simp [List.mem_map]
    rw [h0]
    simp

/-- Witness for C8's theorem: one entry with one route whose absolute
expiration is 5000000 ns and `now = 0`, listed with a remaining period of
5 ms. -/
theorem listEntries_emits_routes_witness :
    ∃ item,
      StreamEvent.append item ∈
        listEntries [(["a"], [{ faceId := 7, origin := 1, cost := 2, flags := 4,
                                expires := some 5000000 }])] 0 ∧
      item.name = ["a"] ∧
      ∃ ri ∈ item.routes,
        ri.faceId = 7 ∧ ri.origin = 1 ∧ ri.cost = 2 ∧ ri.flags = 4 ∧
        ri.expirationPeriod = some 5 :=
  (listEntries_emits_routes
      [(["a"], [{ faceId := 7, origin := 1, cost := 2, flags := 4,
                  expires := some 5000000 }])] 0).1
    (["a"], [{ faceId := 7, origin := 1, cost := 2, flags := 4, expires := some 5000000 }])
    (by simp)
    { faceId := 7, origin := 1, cost := 2, flags := 4, expires := some 5000000 }
    (by simp)

/-- Claim C10: a registration whose `expirationPeriod` equals the maximum
representable milliseconds value is treated as permanent: no expiration timer
is scheduled, and the single submitted update carries a route with no
expiration timestamp. -/
theorem registerEntry_max_expiration_permanent (fibMaxDepth incomingFaceId : Nat)
    (p : ControlParameters) (now : Int) (applyOk : Bool)
    (hlen : p.name.length ≤ fibMaxDepth)
    (hexp : p.expirationPeriod = some MILLISECONDS_MAX) :
    scheduledTimerDelays (registerEntry fibMaxDepth incomingFaceId p now applyOk) = [] ∧
    (submittedUpdates (registerEntry fibMaxDepth incomingFaceId p now applyOk)).map
        (fun u => u.route.expires) = [none] := by
  have hnot : ¬ p.name.length > fibMaxDepth := by omega
  have hp : (setFaceForSelfRegistration incomingFaceId p).expirationPeriod =
      some MILLISECONDS_MAX := by
    unfold setFaceForSelfRegistration
    split <;> simpa using hexp
  cases applyOk <;>
    simp [registerEntry, hnot, hp, beginAddRoute, beginRibUpdate,
      scheduledTimerDelays, submittedUpdates]

/-- Witness for C10's theorem at a concrete request with the maximum
expiration period. -/
theorem registerEntry_max_expiration_permanent_witness :
    scheduledTimerDelays (registerEntry 2 6
        { name := ["a"], faceId := 3, origin := 0, cost := 0, flags := 0,
          expirationPeriod := some MILLISECONDS_MAX } 0 true) = [] ∧
    (submittedUpdates (registerEntry 2 6
        { name := ["a"], faceId := 3, origin := 0, cost := 0, flags := 0,
          expirationPeriod := some MILLISECONDS_MAX } 0 true)).map
        (fun u => u.route.expires) = [none] :=
  registerEntry_max_expiration_permanent 2 6
    { name := ["a"], faceId := 3, origin := 0, cost := 0, flags := 0,
      expirationPeriod := some MILLISECONDS_MAX } 0 true
    (by decide) rfl

end RibMgr
